import Mathlib

/-!
Shallow embedding of the weekly-analytics extraction pipeline
(src/models/data_models.py and src/core/extraction.py).

Raw spreadsheet cells are modelled by `Value` (string, numeric, date, or
absent/NaN).  Numeric cells are modelled as rationals; datetimes as integers.
Rows and records are ordered association lists keyed by column / field name,
with first-match lookup mirroring Python dict access.  Fallible construction
(pydantic validation) is modelled with `Except String`.
-/

/-- A raw scalar cell value, as produced by the tabular source adapter. -/
inductive Value where
  | str (s : String)
  | num (q : ℚ)
  | date (d : Int)
  | null
deriving DecidableEq

/-- A row or record: ordered mapping from column / field name to value. -/
abbrev Record := List (String × Value)

/-- First-match association-list lookup, mirroring Python dict indexing. -/
def lookupKey {α : Type} (k : String) : List (String × α) → Option α
  | [] => none
  | (k1, v) :: rest => if k1 = k then some v else lookupKey k rest

/-- Enum for probability status values (data_models.py, ProbabilityStatus). -/
inductive ProbabilityStatus where
  | low
  | medium
  | high
  | closedWon
  | closedLost
deriving DecidableEq

/-- Model for contact information (data_models.py, Contact). -/
structure Contact where
  name : String
  email : Option String
  phone : Option String
deriving DecidableEq

/-- Model for a single funnel entry from the Excel file (data_models.py, FunnelEntry). -/
structure FunnelEntry where
  id : Option String
  company_name : String
  project_name : String
  value : ℚ
  probability : Option ℚ
  status : Option ProbabilityStatus
  start_date : Option Int
  expected_close_date : Option Int
  contacts : Option (List Contact)
  notes : Option String
  last_updated : Option Int
  custom_fields : List (String × Value)
deriving DecidableEq

/-- Coercion of a raw value into a string field. -/
def asStr : Value → Except String String
  | Value.str s => Except.ok s
  | _ => Except.error "str type expected"

/-- Coercion of a raw value into a numeric field. -/
def asNum : Value → Except String ℚ
  | Value.num q => Except.ok q
  | _ => Except.error "value is not a valid float"

/-- Coercion of a raw value into the closed status enumeration; any string
outside the five allowed members is a validation failure. -/
def asStatus : Value → Except String ProbabilityStatus
  | Value.str "Low" => Except.ok ProbabilityStatus.low
  | Value.str "Medium" => Except.ok ProbabilityStatus.medium
  | Value.str "High" => Except.ok ProbabilityStatus.high
  | Value.str "Closed Won" => Except.ok ProbabilityStatus.closedWon
  | Value.str "Closed Lost" => Except.ok ProbabilityStatus.closedLost
  | _ => Except.error "value is not a valid enumeration member"

/-- Coercion of a raw value into a datetime field. -/
def asDate : Value → Except String Int
  | Value.date d => Except.ok d
  | _ => Except.error "invalid datetime format"

/-- An optional field: absent or explicit None means not provided; a present
value must coerce. -/
def optField {α : Type} (v? : Option Value) (coe : Value → Except String α) :
    Except String (Option α) :=
  match v? with
  | none => Except.ok none
  | some Value.null => Except.ok none
  | some v =>
    match coe v with
    | Except.ok a => Except.ok (some a)
    | Except.error e => Except.error e

/-- A required field: absent is a validation failure; a present value must
coerce (None fails the coercion). -/
def reqField {α : Type} (v? : Option Value) (coe : Value → Except String α) :
    Except String α :=
  match v? with
  | none => Except.error "field required"
  | some v => coe v

/-- The contacts field: Optional list with default-factory list, so an absent
key yields the empty list and an explicit None yields None.  List-valued cells
cannot arise from the modelled scalar rows, so any present value fails. -/
def contactsField (v? : Option Value) : Except String (Option (List Contact)) :=
  match v? with
  | none => Except.ok (some [])
  | some Value.null => Except.ok none
  | some _ => Except.error "value is not a valid list"

/-- The custom_fields bag: default-factory dict, so an absent key yields the
empty bag; dict-valued cells cannot arise from the modelled scalar rows, so
any present value fails. -/
def bagField (v? : Option Value) : Except String (List (String × Value)) :=
  match v? with
  | none => Except.ok []
  | some _ => Except.error "value is not a valid dict"

/-- Field validator on probability (data_models.py, validate_probability):
a present probability must lie between 0 and 100. -/
def validate_probability (v : Option ℚ) : Except String (Option ℚ) :=
  match v with
  | none => Except.ok none
  | some p =>
    if p < 0 ∨ p > 100 then Except.error "Probability must be between 0 and 100"
    else Except.ok (some p)

/-- Root validator (data_models.py, check_dates): if both dates are present,
start_date must not be after expected_close_date. -/
def check_dates (e : FunnelEntry) : Except String FunnelEntry :=
  match e.start_date, e.expected_close_date with
  | some s, some c =>
    if s > c then Except.error "Start date must be before expected close date"
    else Except.ok e
  | _, _ => Except.ok e

/-- The declared FunnelEntry field names, in declaration order. -/
def declaredFields : List String :=
  ["id", "company_name", "project_name", "value", "probability", "status",
   "start_date", "expected_close_date", "contacts", "notes", "last_updated",
   "custom_fields"]

/-- Construction of a FunnelEntry from a keyword record, mirroring pydantic
validation: each declared field is looked up (unknown keys are ignored, the
pydantic default), coerced, the probability field validator runs, and finally
the check_dates root validator runs on the candidate entry. -/
def mkFunnelEntry (r : Record) : Except String FunnelEntry := do
  let id ← optField (lookupKey "id" r) asStr
  let company_name ← reqField (lookupKey "company_name" r) asStr
  let project_name ← reqField (lookupKey "project_name" r) asStr
  let value ← reqField (lookupKey "value" r) asNum
  let probability ← optField (lookupKey "probability" r) asNum
  let probability ← validate_probability probability
  let status ← optField (lookupKey "status" r) asStatus
  let start_date ← optField (lookupKey "start_date" r) asDate
  let expected_close_date ← optField (lookupKey "expected_close_date" r) asDate
  let contacts ← contactsField (lookupKey "contacts" r)
  let notes ← optField (lookupKey "notes" r) asStr
  let last_updated ← optField (lookupKey "last_updated" r) asDate
  let custom_fields ← bagField (lookupKey "custom_fields" r)
  check_dates
    { id := id, company_name := company_name, project_name := project_name,
      value := value, probability := probability, status := status,
      start_date := start_date, expected_close_date := expected_close_date,
      contacts := contacts, notes := notes, last_updated := last_updated,
      custom_fields := custom_fields }

/-- Model for the complete funnel data set (data_models.py, FunnelData). -/
structure FunnelData where
  entries : List FunnelEntry
  extraction_date : Int
  source_file : String
  sheet_name : Option String
  total_value : Option ℚ
deriving DecidableEq

/-- Python sum over entry values: left fold starting at 0, in insertion order. -/
def sumValues (entries : List FunnelEntry) : ℚ :=
  entries.foldl (fun acc e => acc + e.value) 0

/-- Root validator (data_models.py, calculate_total_value): overwrite
total_value with the sum of entry values, but only when the entry list is
non-empty (the Python guard is the truthiness test on entries). -/
def calculate_total_value (entries : List FunnelEntry) (total_value : Option ℚ) :
    Option ℚ :=
  if entries.isEmpty then total_value else some (sumValues entries)

/-- Construction of FunnelData: fields are taken as given, then the
calculate_total_value root validator runs.  Construction never fails; in
particular an empty entry list is accepted (pydantic places no constraint
beyond the List type). -/
def mkFunnelData (entries : List FunnelEntry) (extraction_date : Int)
    (source_file : String) (sheet_name : Option String) (total_value : Option ℚ) :
    FunnelData :=
  { entries := entries, extraction_date := extraction_date,
    source_file := source_file, sheet_name := sheet_name,
    total_value := calculate_total_value entries total_value }

/-- Whether a raw value is absent/NaN (pandas notna is false). -/
def Value.isNull : Value → Bool
  | Value.null => true
  | _ => false

/-- Row cleaning in extract_validated_data: drop pairs whose value is
absent/NaN before entry construction. -/
def cleanRecord (r : Record) : Record :=
  r.filter fun kv => !(Value.isNull kv.2)

/-- Column renaming for one column (pandas DataFrame.rename semantics):
a column that is a key of the mapping is renamed to its target, any other
column keeps its original name.  Restricting the rename dict to columns
present in the frame, as the source does, does not change this result. -/
def applyMapping (mapping : List (String × String)) (c : String) : String :=
  match lookupKey c mapping with
  | some t => t
  | none => c

/-- The column-mapping step of extract_validated_data: rename each column of
the row according to the mapping.  Unmapped columns are retained. -/
def mapRow (mapping : List (String × String)) (row : Record) : Record :=
  row.map fun kv => (applyMapping mapping kv.1, kv.2)

/-- The default column mapping of extract_validated_data. -/
def defaultMapping : List (String × String) :=
  [("Company", "company_name"), ("Project", "project_name"), ("Value", "value"),
   ("Probability (%)", "probability"), ("Status", "status"),
   ("Start Date", "start_date"), ("Expected Close", "expected_close_date"),
   ("Notes", "notes"), ("Last Updated", "last_updated")]

/-- Whether an Except result is an error. -/
def isErr {ε α : Type} : Except ε α → Bool
  | Except.error _ => true
  | Except.ok _ => false

/-- The per-row error message of extract_validated_data: the zero-based row
index offset by 2, followed by the underlying reason. -/
def rowFailure (i : Nat) (msg : String) : String :=
  "Row " ++ toString (i + 2) ++ ": " ++ msg

/-- Whether a mapped record fails entry validation. -/
def rowFails (r : Record) : Bool :=
  isErr (mkFunnelEntry (cleanRecord r))

/-- The number of mapped records that fail entry validation. -/
def failCount (records : List Record) : Nat :=
  records.countP rowFails

/-- The accumulated row-failure messages for a batch of mapped records:
one tagged message per failing record, in row order. -/
def rowFailures (records : List Record) : List String :=
  (List.enumFrom 0 records).filterMap fun p =>
    match mkFunnelEntry (cleanRecord p.2) with
    | Except.ok _ => none
    | Except.error msg => some (rowFailure p.1 msg)

/-- The validation loop of extract_validated_data: every record is cleaned
and validated; valid entries and tagged row errors are accumulated in order,
and a failing row never stops the processing of later rows. -/
def validateBatch : Nat → List Record → List FunnelEntry × List String
  | _, [] => ([], [])
  | i, r :: rs =>
    let rest := validateBatch (i + 1) rs
    match mkFunnelEntry (cleanRecord r) with
    | Except.ok e => (e :: rest.1, rest.2)
    | Except.error msg => (rest.1, rowFailure i msg :: rest.2)

/-- extract_validated_data (extraction.py), from the point where the raw rows
have been read: rename columns by the mapping, validate every row, and either
raise one aggregate validation error carrying all row failures (the ValueError
joins these messages with semicolons) or build the FunnelData result with no
externally supplied total_value. -/
def extract_validated_data (mapping : List (String × String)) (rows : List Record)
    (source_file : String) (sheet_name : Option String) (extraction_date : Int) :
    Except (List String) FunnelData :=
  if ((validateBatch 0 (rows.map (mapRow mapping))).2).isEmpty then
    Except.ok (mkFunnelData (validateBatch 0 (rows.map (mapRow mapping))).1
      extraction_date source_file sheet_name none)
  else
    Except.error (validateBatch 0 (rows.map (mapRow mapping))).2

/-- What a filesystem path is: absent, a regular file, or a directory. -/
inductive PathKind where
  | missing
  | file
  | dir
deriving DecidableEq

/-- The filesystem facts scan_folder_for_excel_files consults: os.path.exists
and os.path.isdir (combined into a PathKind), and glob.glob. -/
structure FileSystem where
  kind : String → PathKind
  glob : String → String → List String

/-- The Python exception classes that can escape scan_folder_for_excel_files. -/
inductive PyError where
  | fileNotFound (msg : String)
  | permissionError (msg : String)
  | valueError (msg : String)
  | exception (msg : String)
deriving DecidableEq

/-- The message carried by an exception. -/
def PyError.text : PyError → String
  | PyError.fileNotFound m => m
  | PyError.permissionError m => m
  | PyError.valueError m => m
  | PyError.exception m => m

/-- scan_folder_for_excel_files (extraction.py): the try body raises
FileNotFoundError when the path does not exist and ValueError when it exists
but is not a directory; the except clauses then re-raise FileNotFoundError and
PermissionError with extended messages, while every other exception - the
ValueError included - is caught by the final catch-all clause and re-raised as
a plain wrapped Exception. -/
def scan_folder_for_excel_files (fs : FileSystem) (folder_path : String)
    (pat : String) : Except PyError (List String) :=
  let body : Except PyError (List String) :=
    if fs.kind folder_path = PathKind.missing then
      Except.error (PyError.fileNotFound ("Folder not found: " ++ folder_path))
    else if ¬ (fs.kind folder_path = PathKind.dir) then
      Except.error (PyError.valueError ("Not a directory: " ++ folder_path))
    else
      Except.ok (fs.glob folder_path pat)
  match body with
  | Except.ok files => Except.ok files
  | Except.error (PyError.fileNotFound _) =>
    Except.error (PyError.fileNotFound
      ("Folder not found: " ++ folder_path ++ ". Make sure the path is correct."))
  | Except.error (PyError.permissionError _) =>
    Except.error (PyError.permissionError
      ("Cannot access " ++ folder_path ++ ". Please check your VPN connection and permissions."))
  | Except.error e =>
    Except.error (PyError.exception
      ("Error scanning folder for Excel files: " ++ e.text))

/-! Concrete inputs used by the claim theorems and witnesses. -/

/-- A minimal valid keyword record: both required strings and a value. -/
def probRecBase : Record :=
  [("company_name", Value.str "A"), ("project_name", Value.str "P"),
   ("value", Value.num 1)]

/-- The entry built from probRecBase, with the given probability field. -/
def pentry (p : Option ℚ) : FunnelEntry :=
  { id := none, company_name := "A", project_name := "P", value := 1,
    probability := p, status := none, start_date := none,
    expected_close_date := none, contacts := some [], notes := none,
    last_updated := none, custom_fields := [] }

/-- probRecBase extended with an optional probability cell. -/
def probRec (p : Option ℚ) : Record :=
  probRecBase ++ (p.map fun q => ("probability", Value.num q)).toList

/-- probRecBase extended with optional start and expected-close date cells. -/
def dateRec (sd cd : Option Int) : Record :=
  probRecBase ++ (sd.map fun s => ("start_date", Value.date s)).toList
    ++ (cd.map fun c => ("expected_close_date", Value.date c)).toList

/-- The entry built from dateRec, with the given date fields. -/
def dentry (sd cd : Option Int) : FunnelEntry :=
  { pentry none with start_date := sd, expected_close_date := cd }

/-- The custom mapping of the spec's Scenario C, routing two source columns
to dotted custom-fields paths. -/
def scenarioCMapping : List (String × String) :=
  [("Company", "company_name"), ("Project", "project_name"), ("Value", "value"),
   ("Probability (%)", "custom_fields.probability_pct"),
   ("Status", "custom_fields.status_text")]

/-- The raw row of the spec's Scenario C. -/
def scenarioCRow : Record :=
  [("Company", Value.str "ABC Corp"), ("Project", Value.str "Website Redesign"),
   ("Value", Value.num 50000), ("Probability (%)", Value.num 80),
   ("Status", Value.str "High")]

/-- The entry the code actually produces for Scenario C: the dotted keys of
the mapped record are not declared field names, so entry construction ignores
them and the custom_fields bag stays empty. -/
def scenarioCEntry : FunnelEntry :=
  { id := none, company_name := "ABC Corp", project_name := "Website Redesign",
    value := 50000, probability := none, status := none, start_date := none,
    expected_close_date := none, contacts := some [], notes := none,
    last_updated := none, custom_fields := [] }

/-- A two-row batch whose second row carries an out-of-range probability. -/
def witnessRows : List Record :=
  [[("Company", Value.str "ABC Corp"), ("Project", Value.str "Website Redesign"),
    ("Value", Value.num 50000)],
   [("Company", Value.str "XYZ Ltd"), ("Project", Value.str "Mobile App"),
    ("Value", Value.num 75000), ("Probability (%)", Value.num 120)]]

/-- A filesystem in which every path is a regular file. -/
def fsFileEverywhere : FileSystem :=
  { kind := fun _ => PathKind.file, glob := fun _ _ => [] }

/-- A filesystem in which every path is absent. -/
def fsMissingEverywhere : FileSystem :=
  { kind := fun _ => PathKind.missing, glob := fun _ _ => [] }

/-! Helper lemmas. -/

/-- Inversion for a successful Except bind. -/
theorem bind_ok {eps alpha beta : Type} {x : Except eps alpha}
    {f : alpha → Except eps beta} {b : beta}
    (h : x >>= f = Except.ok b) : ∃ a, x = Except.ok a ∧ f a = Except.ok b := by
  cases x with
  | error e => exact Except.noConfusion h
  | ok a => exact ⟨a, rfl, h⟩

/-- A successful check_dates returns its candidate unchanged, and when both
dates are present the start date is not after the close date. -/
theorem check_dates_ok {cand e : FunnelEntry} (h : check_dates cand = Except.ok e) :
    e = cand ∧ ∀ s c, cand.start_date = some s → cand.expected_close_date = some c → s ≤ c := by
  unfold check_dates at h
  split at h
  next s c hs hc =>
    split at h
    · exact Except.noConfusion h
    next hnot =>
      cases h
      refine ⟨rfl, ?_⟩
      intro s1 c1 hs1 hc1
      rw [hs] at hs1
      rw [hc] at hc1
      cases hs1
      cases hc1
      omega
  next hw =>
    cases h
    refine ⟨rfl, ?_⟩
    intro s1 c1 hs1 hc1
    exact (hw s1 c1 hs1 hc1).elim

/-- A probability that survives the field validator lies between 0 and 100. -/
theorem validate_probability_ok {x y : Option ℚ}
    (h : validate_probability x = Except.ok y) :
    ∀ p, y = some p → 0 ≤ p ∧ p ≤ 100 := by
  unfold validate_probability at h
  split at h
  · cases h
    intro p hp
    exact Option.noConfusion hp
  next q =>
    split at h
    · exact Except.noConfusion h
    next hnot =>
      cases h
      intro p hp
      cases hp
      push_neg at hnot
      exact ⟨hnot.1, hnot.2⟩

/-- A successfully constructed entry has a validated probability field and
ordered dates. -/
theorem mkFunnelEntry_ok_spec {r : Record} {e : FunnelEntry}
    (h : mkFunnelEntry r = Except.ok e) :
    (∃ p0, validate_probability p0 = Except.ok e.probability) ∧
    (∀ s c, e.start_date = some s → e.expected_close_date = some c → s ≤ c) := by
  unfold mkFunnelEntry at h
  obtain ⟨idv, _, h⟩ := bind_ok h
  obtain ⟨cn, _, h⟩ := bind_ok h
  obtain ⟨pn, _, h⟩ := bind_ok h
  obtain ⟨vv, _, h⟩ := bind_ok h
  obtain ⟨p0, _, h⟩ := bind_ok h
  obtain ⟨pv, hp, h⟩ := bind_ok h
  obtain ⟨st, _, h⟩ := bind_ok h
  obtain ⟨sd, _, h⟩ := bind_ok h
  obtain ⟨cd, _, h⟩ := bind_ok h
  obtain ⟨ct, _, h⟩ := bind_ok h
  obtain ⟨nt, _, h⟩ := bind_ok h
  obtain ⟨lu, _, h⟩ := bind_ok h
  obtain ⟨cf, _, h⟩ := bind_ok h
  obtain ⟨he, hdates⟩ := check_dates_ok h
  subst he
  exact ⟨⟨p0, hp⟩, hdates⟩

/-- The error component of the validation loop equals the tagged failures of
every failing record, indexed from the given starting row index. -/
theorem validateBatch_errors (i : Nat) (rs : List Record) :
    (validateBatch i rs).2 = (List.enumFrom i rs).filterMap fun p =>
      match mkFunnelEntry (cleanRecord p.2) with
      | Except.ok _ => none
      | Except.error msg => some (rowFailure p.1 msg) := by
  induction rs generalizing i with
  | nil => rfl
  | cons r rs ih =>
    simp only [validateBatch, List.enumFrom, List.filterMap_cons]
    cases hm : mkFunnelEntry (cleanRecord r) with
    | ok e => simp [hm, ih]
    | error msg => simp [hm, ih]

/-- The tagged-failure list has one element per failing record, for any
starting row index. -/
theorem enumFrom_filterMap_length (i : Nat) (rs : List Record) :
    ((List.enumFrom i rs).filterMap fun p =>
       match mkFunnelEntry (cleanRecord p.2) with
       | Except.ok _ => none
       | Except.error msg => some (rowFailure p.1 msg)).length = rs.countP rowFails := by
  induction rs generalizing i with
  | nil => rfl
  | cons r rs ih =>
    simp only [List.enumFrom, List.filterMap_cons, List.countP_cons]
    cases hm : mkFunnelEntry (cleanRecord r) with
    | ok e => simp [hm, ih, rowFails, isErr]
    | error msg => simp [hm, ih, rowFails, isErr]

/-- The batch failure list has exactly one message per failing record. -/
theorem rowFailures_length (records : List Record) :
    (rowFailures records).length = failCount records :=
  enumFrom_filterMap_length 0 records

/-- Association-list lookup is unchanged by filtering with a predicate that
holds for every pair carrying the looked-up key. -/
theorem lookupKey_filter {alpha : Type} (p : String × alpha → Bool) (n : String)
    (r : List (String × alpha)) (hp : ∀ v, p (n, v) = true) :
    lookupKey n (r.filter p) = lookupKey n r := by
  induction r with
  | nil => rfl
  | cons kv rest ih =>
    cases kv with
    | mk k1 v1 =>
      by_cases hk : k1 = n
      · subst hk
        rw [List.filter_cons_of_pos (hp v1)]
        simp [lookupKey]
      · rw [List.filter_cons]
        cases hpkv : p (k1, v1) with
        | true => simp [lookupKey, hk, ih]
        | false => simp [lookupKey, hk, ih]

/-- Association-list lookup is unchanged by appending a pair with a
different key. -/
theorem lookupKey_append_single {alpha : Type} (r : List (String × alpha))
    (k n : String) (v : alpha) (h : ¬ (k = n)) :
    lookupKey n (r ++ [(k, v)]) = lookupKey n r := by
  induction r with
  | nil => simp [lookupKey, h]
  | cons kv rest ih =>
    cases kv with
    | mk k1 v1 =>
      simp only [List.cons_append, lookupKey]
      by_cases hk : k1 = n
      · rw [if_pos hk, if_pos hk]
      · rw [if_neg hk, if_neg hk]
        exact ih

/-- Entry construction depends on a record only through the lookups of the
declared field names. -/
theorem mkFunnelEntry_congr {r1 r2 : Record}
    (h : ∀ n, declaredFields.contains n = true → lookupKey n r1 = lookupKey n r2) :
    mkFunnelEntry r1 = mkFunnelEntry r2 := by
  unfold mkFunnelEntry
  rw [h "id" (by decide), h "company_name" (by decide), h "project_name" (by decide),
      h "value" (by decide), h "probability" (by decide), h "status" (by decide),
      h "start_date" (by decide), h "expected_close_date" (by decide),
      h "contacts" (by decide), h "notes" (by decide), h "last_updated" (by decide),
      h "custom_fields" (by decide)]

/-- Entry construction on a probRec reduces to the probability validator. -/
theorem mkFunnelEntry_probRec (p : Option ℚ) :
    mkFunnelEntry (probRec p) = (validate_probability p).bind fun x => Except.ok (pentry x) := by
  cases p <;> rfl

/-- Entry construction on a dateRec reduces to the date root validator. -/
theorem mkFunnelEntry_dateRec (sd cd : Option Int) :
    mkFunnelEntry (dateRec sd cd) = check_dates (dentry sd cd) := by
  cases sd <;> cases cd <;> rfl

/-! Claim theorems. -/

/-- C1: for every batch of mapped rows in which exactly k rows fail entry
validation with 0 < k < N, extract_validated_data raises one aggregate
validation error whose list is precisely the tagged failures of the failing
rows - each tagged with its zero-based index plus 2, rows after a failing row
still being validated - with exactly k entries, and no FunnelData is
returned. -/
theorem C1_row_isolation (mapping : List (String × String)) (rows : List Record)
    (source_file : String) (sheet_name : Option String) (extraction_date : Int)
    (h1 : 0 < failCount (rows.map (mapRow mapping)))
    (h2 : failCount (rows.map (mapRow mapping)) < (rows.map (mapRow mapping)).length) :
    extract_validated_data mapping rows source_file sheet_name extraction_date =
      Except.error (rowFailures (rows.map (mapRow mapping))) ∧
    (rowFailures (rows.map (mapRow mapping))).length = failCount (rows.map (mapRow mapping)) := by
  refine ⟨?_, rowFailures_length _⟩
  unfold extract_validated_data
  rw [validateBatch_errors 0 (rows.map (mapRow mapping))]
  have hlen := rowFailures_length (rows.map (mapRow mapping))
  have hne : (rowFailures (rows.map (mapRow mapping))).isEmpty = false := by
    cases hrw : rowFailures (rows.map (mapRow mapping)) with
    | nil => rw [hrw] at hlen; simp at hlen; omega
    | cons a l => rfl
  rw [show ((List.enumFrom 0 (rows.map (mapRow mapping))).filterMap fun p =>
      match mkFunnelEntry (cleanRecord p.2) with
      | Except.ok _ => none
      | Except.error msg => some (rowFailure p.1 msg)) =
        rowFailures (rows.map (mapRow mapping)) from rfl]
  rw [hne]
  rfl

/-- C1 witness: a concrete two-row batch with one failing row (probability
120 in the second row) hits the aggregate-error path with one tagged
failure. -/
theorem C1_row_isolation_witness :
    extract_validated_data defaultMapping witnessRows "funnel.xlsx" none 0 =
      Except.error (rowFailures (witnessRows.map (mapRow defaultMapping))) ∧
    (rowFailures (witnessRows.map (mapRow defaultMapping))).length =
      failCount (witnessRows.map (mapRow defaultMapping)) :=
  C1_row_isolation defaultMapping witnessRows "funnel.xlsx" none 0 (by decide) (by decide)

/-- C2 counterexample: a FunnelData constructed from the empty entry list
with an externally supplied total_value keeps that external value, so the
computed sum does not always override it. -/
theorem C2_claim_counterexample :
    (mkFunnelData [] 0 "funnel.xlsx" none (some 5)).total_value ≠ some (sumValues []) := by
  decide

/-- C2 (amended): for every non-empty entry list, the constructed
FunnelData's total_value is the exact insertion-order sum of the entries'
value fields, whatever total_value was supplied externally. -/
theorem C2_amended_total_value (es : List FunnelEntry) (d : Int) (f : String)
    (s : Option String) (tv : Option ℚ) (h : es ≠ []) :
    (mkFunnelData es d f s tv).total_value = some (sumValues es) := by
  cases es with
  | nil => exact absurd rfl h
  | cons a l => rfl

/-- C2 witness: a singleton entry list with a conflicting external
total_value still gets the computed sum. -/
theorem C2_amended_total_value_witness :
    (mkFunnelData [pentry none] 0 "funnel.xlsx" none (some 999)).total_value =
      some (sumValues [pentry none]) :=
  C2_amended_total_value [pentry none] 0 "funnel.xlsx" none (some 999) (List.cons_ne_nil _ _)

/-- C3: contrary to the claim, an extraction yielding zero rows does not fail
with an empty-dataset error: extract_validated_data constructs and returns a
FunnelData whose entries list is empty (and whose total_value stays None),
because no empty-entries check exists in the code - the repository's own
model test expects this construction to be rejected. -/
theorem C3_bug_empty_dataset_returned :
    extract_validated_data defaultMapping [] "funnel.xlsx" none 0 =
      Except.ok { entries := [], extraction_date := 0, source_file := "funnel.xlsx",
                  sheet_name := none, total_value := none } := rfl

/-- C4: contrary to the claim, the dotted mapping target
custom_fields.probability_pct does not route the value 80 into the
custom-fields bag: the mapped key is not a declared field name, entry
construction ignores it, and the resulting entry has an empty custom_fields
bag (probability is indeed absent) - the repository's own extraction test
expects the bag to be populated. -/
theorem C4_bug_dotted_mapping_not_routed :
    extract_validated_data scenarioCMapping [scenarioCRow] "funnel.xlsx" (some "Sheet1") 0 =
      Except.ok { entries := [scenarioCEntry], extraction_date := 0,
                  source_file := "funnel.xlsx", sheet_name := some "Sheet1",
                  total_value := some 50000 } ∧
    scenarioCEntry.probability = none ∧
    scenarioCEntry.custom_fields = [] ∧
    lookupKey "probability_pct" scenarioCEntry.custom_fields = none := by
  refine ⟨?_, rfl, rfl, rfl⟩
  have h : extract_validated_data scenarioCMapping [scenarioCRow] "funnel.xlsx" (some "Sheet1") 0 =
      Except.ok (mkFunnelData [scenarioCEntry] 0 "funnel.xlsx" (some "Sheet1") none) := rfl
  rw [h]
  simp [mkFunnelData, calculate_total_value, sumValues, scenarioCEntry]

/-- C5: a probability present in a successfully constructed entry lies
between 0 and 100; construction with an out-of-range probability fails with
the probability error, and construction with probability absent or in range
(0 and 100 included) passes this check. -/
theorem C5_probability_range :
    (∀ (r : Record) (e : FunnelEntry) (p : ℚ),
        mkFunnelEntry r = Except.ok e → e.probability = some p → 0 ≤ p ∧ p ≤ 100) ∧
    (∀ q : ℚ, q < 0 ∨ q > 100 →
        mkFunnelEntry (probRec (some q)) = Except.error "Probability must be between 0 and 100") ∧
    (∀ q : ℚ, 0 ≤ q → q ≤ 100 → mkFunnelEntry (probRec (some q)) = Except.ok (pentry (some q))) ∧
    mkFunnelEntry (probRec none) = Except.ok (pentry none) := by
  refine ⟨?_, ?_, ?_, rfl⟩
  · intro r e p hok hp
    obtain ⟨⟨p0, hv⟩, _⟩ := mkFunnelEntry_ok_spec hok
    exact validate_probability_ok hv p hp
  · intro q hq
    rw [mkFunnelEntry_probRec]
    rw [show validate_probability (some q) =
        (if q < 0 ∨ q > 100 then Except.error "Probability must be between 0 and 100"
         else Except.ok (some q)) from rfl]
    rw [if_pos hq]
    rfl
  · intro q h0 h100
    rw [mkFunnelEntry_probRec]
    rw [show validate_probability (some q) =
        (if q < 0 ∨ q > 100 then Except.error "Probability must be between 0 and 100"
         else Except.ok (some q)) from rfl]
    rw [if_neg (by simp only [not_or, not_lt]; exact ⟨h0, h100⟩)]
    rfl

/-- C5 witness: construction fails at probability -1 and 101, and succeeds
at 0 and 100. -/
theorem C5_probability_range_witness :
    mkFunnelEntry (probRec (some (-1))) = Except.error "Probability must be between 0 and 100" ∧
    mkFunnelEntry (probRec (some 101)) = Except.error "Probability must be between 0 and 100" ∧
    mkFunnelEntry (probRec (some 0)) = Except.ok (pentry (some 0)) ∧
    mkFunnelEntry (probRec (some 100)) = Except.ok (pentry (some 100)) :=
  ⟨C5_probability_range.2.1 (-1) (by norm_num),
   C5_probability_range.2.1 101 (by norm_num),
   C5_probability_range.2.2.1 0 (by norm_num) (by norm_num),
   C5_probability_range.2.2.1 100 (by norm_num) (by norm_num)⟩

/-- C6: in a successfully constructed entry with both dates present the
start date is at most the expected-close date; construction succeeds when
start_date <= expected_close_date (equality allowed), fails with the date
error when the start date is strictly later, and the check is skipped when
either date is absent. -/
theorem C6_date_ordering :
    (∀ (r : Record) (e : FunnelEntry) (s c : Int),
        mkFunnelEntry r = Except.ok e → e.start_date = some s →
        e.expected_close_date = some c → s ≤ c) ∧
    (∀ s c : Int, s ≤ c →
        mkFunnelEntry (dateRec (some s) (some c)) = Except.ok (dentry (some s) (some c))) ∧
    (∀ s c : Int, c < s →
        mkFunnelEntry (dateRec (some s) (some c)) =
          Except.error "Start date must be before expected close date") ∧
    (∀ s : Int, mkFunnelEntry (dateRec (some s) none) = Except.ok (dentry (some s) none)) ∧
    (∀ c : Int, mkFunnelEntry (dateRec none (some c)) = Except.ok (dentry none (some c))) := by
  refine ⟨?_, ?_, ?_, fun s => rfl, fun c => rfl⟩
  · intro r e s c hok hs hc
    exact (mkFunnelEntry_ok_spec hok).2 s c hs hc
  · intro s c hsc
    rw [mkFunnelEntry_dateRec]
    rw [show check_dates (dentry (some s) (some c)) =
        (if s > c then Except.error "Start date must be before expected close date"
         else Except.ok (dentry (some s) (some c))) from rfl]
    rw [if_neg (not_lt.mpr hsc)]
  · intro s c hcs
    rw [mkFunnelEntry_dateRec]
    rw [show check_dates (dentry (some s) (some c)) =
        (if s > c then Except.error "Start date must be before expected close date"
         else Except.ok (dentry (some s) (some c))) from rfl]
    rw [if_pos hcs]

/-- C6 witness: equal dates are accepted and reversed dates are rejected. -/
theorem C6_date_ordering_witness :
    mkFunnelEntry (dateRec (some 3) (some 3)) = Except.ok (dentry (some 3) (some 3)) ∧
    mkFunnelEntry (dateRec (some 5) (some 3)) =
      Except.error "Start date must be before expected close date" :=
  ⟨C6_date_ordering.2.1 3 3 (le_refl 3), C6_date_ordering.2.2.1 5 3 (by norm_num)⟩

/-- C7 counterexample: constructing an entry with empty strings for both
company name and project name succeeds, refuting the claimed non-emptiness
invariant. -/
theorem C7_claim_counterexample :
    mkFunnelEntry [("company_name", Value.str ""), ("project_name", Value.str ""),
                   ("value", Value.num 0)] =
      Except.ok { id := none, company_name := "", project_name := "", value := 0,
                  probability := none, status := none, start_date := none,
                  expected_close_date := none, contacts := some [], notes := none,
                  last_updated := none, custom_fields := [] } := rfl

/-- C7 (amended): company name and project name are required - construction
fails when either key is absent - but any string value is accepted, the empty
string included: no non-emptiness invariant is enforced. -/
theorem C7_amended_required_strings :
    (∀ (s1 s2 : String) (v : ℚ),
        mkFunnelEntry [("company_name", Value.str s1), ("project_name", Value.str s2),
                       ("value", Value.num v)] =
          Except.ok { id := none, company_name := s1, project_name := s2, value := v,
                      probability := none, status := none, start_date := none,
                      expected_close_date := none, contacts := some [], notes := none,
                      last_updated := none, custom_fields := [] }) ∧
    isErr (mkFunnelEntry [("project_name", Value.str "P"), ("value", Value.num 1)]) = true ∧
    isErr (mkFunnelEntry [("company_name", Value.str "A"), ("value", Value.num 1)]) = true :=
  ⟨fun _ _ _ => rfl, rfl, rfl⟩

/-- C8 counterexample: adding an extra unmapped column changes the mapped
row, refuting drop-silence of the column-mapping step. -/
theorem C8_claim_counterexample :
    mapRow [("Company", "company_name")] [("Company", Value.str "A"), ("Extra", Value.num 1)] ≠
      mapRow [("Company", "company_name")] [("Company", Value.str "A")] := by
  decide

/-- C8 (amended): the mapping step renames mapped columns in place and
retains unmapped source columns under their original names, so a row with an
extra unmapped column produces the original mapped row with that column
appended rather than dropped. -/
theorem C8_amended_unmapped_retained (mapping : List (String × String)) (row : Record)
    (c : String) (v : Value) (h : lookupKey c mapping = none) :
    mapRow mapping (row ++ [(c, v)]) = mapRow mapping row ++ [(c, v)] := by
  unfold mapRow
  rw [List.map_append]
  simp [applyMapping, h]

/-- C8 witness: a concrete unmapped extra column is retained at the end of
the mapped row. -/
theorem C8_amended_unmapped_retained_witness :
    mapRow [("Company", "company_name")] ([("Company", Value.str "A")] ++ [("Extra", Value.num 1)]) =
      mapRow [("Company", "company_name")] [("Company", Value.str "A")] ++ [("Extra", Value.num 1)] :=
  C8_amended_unmapped_retained [("Company", "company_name")] [("Company", Value.str "A")]
    "Extra" (Value.num 1) (by decide)

/-- C9: the missing-directory case does reach the caller as a
FileNotFoundError, but contrary to the claim the exists-but-not-a-directory
case does not reach the caller as a ValueError: the internally raised
ValueError is caught by the final catch-all except clause and re-raised as a
plain wrapped Exception - the repository's own test expects a ValueError. -/
theorem C9_bug_not_a_directory_wrapped :
    scan_folder_for_excel_files fsFileEverywhere "report.xlsx" "*.xlsx" =
      Except.error (PyError.exception
        "Error scanning folder for Excel files: Not a directory: report.xlsx") ∧
    scan_folder_for_excel_files fsMissingEverywhere "missing_folder" "*.xlsx" =
      Except.error (PyError.fileNotFound
        "Folder not found: missing_folder. Make sure the path is correct.") :=
  ⟨rfl, rfl⟩

/-- C10: record keys outside the declared FunnelEntry field names are
silently ignored by entry construction: construction from a record equals
construction from its restriction to declared field names, and appending an
undeclared key never changes the outcome - in particular it neither fails the
row by itself nor lands in custom_fields. -/
theorem C10_unknown_keys_ignored (r : Record) :
    mkFunnelEntry (r.filter fun kv => declaredFields.contains kv.1) = mkFunnelEntry r ∧
    ∀ (k : String) (v : Value), declaredFields.contains k = false →
      mkFunnelEntry (r ++ [(k, v)]) = mkFunnelEntry r := by
  constructor
  · exact mkFunnelEntry_congr fun n hn =>
      lookupKey_filter (fun kv => declaredFields.contains kv.1) n r (fun v => hn)
  · intro k v hk
    refine mkFunnelEntry_congr fun n hn => lookupKey_append_single r k n v ?_
    intro hkn
    rw [hkn, hn] at hk
    exact Bool.noConfusion hk

/-- C10 witness: appending the undeclared dotted key of Scenario C to a
valid record leaves entry construction unchanged. -/
theorem C10_unknown_keys_ignored_witness :
    mkFunnelEntry (probRecBase ++ [("custom_fields.probability_pct", Value.num 80)]) =
      mkFunnelEntry probRecBase :=
  (C10_unknown_keys_ignored probRecBase).2 "custom_fields.probability_pct" (Value.num 80) (by decide)
